import Mathlib

/-!
Verification of the claim-synchronizer, backfill and HTTP-proxy functions of
the `frontendPortoS` serverless backend, shallowly embedded in Lean 4.

The embedding mirrors the TypeScript/JavaScript source:
  * custom-claims mappings and document data are association lists of
    JavaScript-like primitive values (`CVal`), with JavaScript truthiness;
  * `setAdminClaim`, the four Claim Synchronizer entry points, the tag
    backfill and the two HTTP proxies become pure functions; external
    I/O outcomes (token verification, upstream HTTP results, model
    responses) are passed in as parameters; side effects performed are
    returned as an explicit `Eff` trace.
-/

/-- A JavaScript-like primitive value, as stored in custom claims and in
Document Store fields. -/
inductive CVal where
  | bool (b : Bool)
  | num (n : Int)
  | str (s : String)
  | null
deriving DecidableEq, Repr

/-- JavaScript truthiness of a primitive value (`!!v`):
`false`, `0`, `""` and `null` are falsy. -/
def CVal.truthy : CVal → Bool
  | .bool b => b
  | .num n => decide (n ≠ 0)
  | .str s => decide (s ≠ "")
  | .null => false

/-- Truthiness of a possibly-absent value: an absent property
(`undefined`) is falsy. -/
def jsTruthyOpt : Option CVal → Bool
  | none => false
  | some v => v.truthy

/-- A JavaScript object, e.g. a custom-claims mapping or a Firestore
document's data: a key-ordered association list with unique keys. -/
def Claims := List (String × CVal)
deriving DecidableEq, Repr

/-- Property read `m[k]`: the value at the first matching key, if any. -/
def lookupClaim : Claims → String → Option CVal
  | [], _ => none
  | (k', v) :: rest, k => if k' = k then some v else lookupClaim rest k

/-- Property assignment `m[k] = v` on an object built by spread:
replaces the value at an existing key in place, otherwise appends
the key at the end (JavaScript insertion-order semantics). -/
def setKey : Claims → String → CVal → Claims
  | [], k, v => [(k, v)]
  | (k', v') :: rest, k, v =>
    if k' = k then (k, v) :: rest else (k', v') :: setKey rest k v

/-- Property deletion `delete m[k]`. -/
def deleteKey (m : Claims) (k : String) : Claims :=
  m.filter (fun p => !(decide (p.1 = k)))

/-- The pure core of `setAdminClaim` (src/unnamed/part_000:224-241): from the
user's existing custom claims (`user.customClaims || {}` already applied)
compute the mapping written back by `setCustomUserClaims`.
If `isAdmin` is true it sets key `admin` to `true`; otherwise it deletes the
`admin` key only when its current value is truthy
(`if (nextClaims.admin) delete nextClaims.admin`). -/
def setAdminClaimNext (existing : Claims) (isAdmin : Bool) : Claims :=
  if isAdmin then setKey existing "admin" (CVal.bool true)
  else if jsTruthyOpt (lookupClaim existing "admin") then deleteKey existing "admin"
  else existing

/-- `setAdminClaim` seen as a transformer of the Credential Store record's
custom-claims field: `user.customClaims` may be absent (`none`), in which
case the code substitutes the empty mapping (`user.customClaims || {}`);
the write always stores a concrete mapping. -/
def grantOrRevoke (c : Option Claims) (isAdmin : Bool) : Option Claims :=
  some (setAdminClaimNext (c.getD []) isAdmin)

-- ## System state and the four Claim Synchronizer entry points

/-- Side effects an invocation performs, in order. -/
inductive Eff where
  | verifyToken
  | readAdminDoc
  | readUserDoc
  | credGetUser
  | credSetClaims
  | outboundHttp
  | docWrite
  | logError
deriving DecidableEq, Repr

/-- The per-uid slice of external state the Claim Synchronizer touches:
whether the Authorization Document `admins/{uid}` exists, the data of the
profile document `users/{uid}` (if it exists), and the user's custom-claims
mapping on the Credential Store (`none` when `customClaims` is unset). -/
structure SysState where
  adminDocExists : Bool
  profileDoc : Option Claims
  userClaims : Option Claims
deriving DecidableEq, Repr

/-- `userDoc.exists && userDoc.data().isAdmin === true`
(strict equality against the boolean `true`). -/
def profileIsAdminStrict (p : Option Claims) : Bool :=
  match p with
  | none => false
  | some d => decide (lookupClaim d "isAdmin" = some (CVal.bool true))

/-- Whether the `admin` claim is present and truthy on the Credential
Store record. -/
def claimTruthy (st : SysState) : Bool :=
  jsTruthyOpt (lookupClaim (st.userClaims.getD []) "admin")

/-- The spec's invariant: the `admin` claim is present and truthy iff an
Authorization Document exists for the uid or the profile document's
`isAdmin` field is `true`. -/
abbrev adminInvariant (st : SysState) : Prop :=
  claimTruthy st = (st.adminDocExists || profileIsAdminStrict st.profileDoc)

/-- `onAdminDocCreated` (src/unnamed/part_000:244-247): on creation of
`admins/{uid}`, call `setAdminClaim(uid, true)`. The handler fires in a
state where the Authorization Document exists. -/
def onAdminDocCreated (st : SysState) : SysState × List Eff :=
  ({ st with userClaims := grantOrRevoke st.userClaims true },
   [Eff.credGetUser, Eff.credSetClaims])

/-- `onAdminDocDeleted` (src/unnamed/part_000:250-253): on deletion of
`admins/{uid}`, call `setAdminClaim(uid, false)`. The handler fires in a
state where the Authorization Document no longer exists. -/
def onAdminDocDeleted (st : SysState) : SysState × List Eff :=
  ({ st with userClaims := grantOrRevoke st.userClaims false },
   [Eff.credGetUser, Eff.credSetClaims])

/-- `onUserIsAdminUpdated` (src/unnamed/part_000:256-265): on an update of
`users/{uid}` from `before` to `after` (absent snapshot data coerced to
`{}`), compute `prev = !!before.isAdmin` and `next = !!after.isAdmin`, and
only when they differ call `setAdminClaim(uid, next)`. -/
def onUserIsAdminUpdated (before after : Option Claims) (st : SysState) :
    SysState × List Eff :=
  let prev := jsTruthyOpt (lookupClaim (before.getD []) "isAdmin")
  let next := jsTruthyOpt (lookupClaim (after.getD []) "isAdmin")
  if prev ≠ next then
    ({ st with userClaims := grantOrRevoke st.userClaims next },
     [Eff.credGetUser, Eff.credSetClaims])
  else (st, [])

-- ## The sync-now HTTP endpoint

/-- Case-insensitive removal of a leading pattern from a character list,
returning the remainder on success. -/
def stripCI : List Char → List Char → Option (List Char)
  | [], cs => some cs
  | _ :: _, [] => none
  | p :: ps, c :: cs => if p.toLower = c.toLower then stripCI ps cs else none

/-- The bearer-token extraction `authHeader.match(/^Bearer\s+(.*)$/i)`
(src/unnamed/part_000:271): the header must start with `Bearer`
(case-insensitively) followed by at least one whitespace character; the
captured token is everything after the whitespace run. -/
def parseBearer (h : String) : Option String :=
  match stripCI "Bearer".data h.data with
  | none => none
  | some rest =>
    match rest with
    | [] => none
    | c :: cs =>
      if c.isWhitespace then some (String.mk ((c :: cs).dropWhile Char.isWhitespace))
      else none

/-- Response body of the `syncAdminClaims` endpoint. -/
inductive SyncBody where
  | okBody (uid : String) (isAdmin : Bool)
  | errBody (msg : String)
deriving DecidableEq, Repr

/-- Outcome of one `syncAdminClaims` invocation: HTTP status, JSON body,
resulting external state, and the effects performed. -/
structure SyncOutcome where
  status : Nat
  body : SyncBody
  store : SysState
  effs : List Eff
deriving DecidableEq, Repr

/-- `syncAdminClaims` (src/unnamed/part_000:268-289). `authHeader` is the
request's `Authorization` header (`none` when absent, coerced to `""`);
`verify` is the Credential Store's identity-token verifier, returning the
uid for a token it accepts and `none` for one it rejects (the code's
`verifyIdToken` throwing, caught by the surrounding handler as a 500).
The handler extracts a bearer token (else 401), verifies it, reads the
Authorization Document and the profile document, computes
`isAdmin = adminDoc.exists || !!(userDoc.exists && userDoc.data().isAdmin === true)`
and calls `setAdminClaim(uid, isAdmin)`, answering 200. -/
def syncAdminClaims (authHeader : Option String) (verify : String → Option String)
    (st : SysState) : SyncOutcome :=
  match parseBearer (authHeader.getD "") with
  | none =>
    ⟨401, SyncBody.errBody "Missing Authorization: Bearer <ID_TOKEN>", st, []⟩
  | some idToken =>
    match verify idToken with
    | none =>
      ⟨500, SyncBody.errBody "Internal Server Error", st,
       [Eff.verifyToken, Eff.logError]⟩
    | some uid =>
      let isAdmin := st.adminDocExists || profileIsAdminStrict st.profileDoc
      ⟨200, SyncBody.okBody uid isAdmin,
       { st with userClaims := grantOrRevoke st.userClaims isAdmin },
       [Eff.verifyToken, Eff.readAdminDoc, Eff.readUserDoc,
        Eff.credGetUser, Eff.credSetClaims]⟩

-- ## Tag backfill (src/functions/lib/index.js:244-338, 361-380)

/-- The fixed controlled vocabulary `ALLOWED_TAGS`. -/
def ALLOWED_TAGS : List String :=
  ["auto", "vida", "saude", "habitacao", "empresas", "rc-profissional",
   "condominio", "multirriscos-empresarial", "frota", "acidentes-trabalho",
   "fiscalidade", "sinistros", "economia", "ambiente", "infraestruturas",
   "local", "nacional"]

/-- `String(t).toLowerCase().trim()` applied to one model-response value
(ASCII lowering and whitespace trimming, implemented over the character
list so concrete values evaluate). -/
def normalizeTag (t : String) : String :=
  String.mk
    ((((t.data.map Char.toLower).dropWhile Char.isWhitespace).reverse.dropWhile
      Char.isWhitespace).reverse)

/-- The filter pipeline of `generateTagsForDoc`:
`parsed.tags.map(t => String(t).toLowerCase().trim()).filter(t => ALLOWED_TAGS.includes(t))`. -/
def filterTags (respTags : List String) : List String :=
  (respTags.map normalizeTag).filter (fun t => ALLOWED_TAGS.contains t)

/-- `generateTagsForDoc` (src/functions/lib/index.js:244-338), with the
model's parsed response array passed in as `respTags`: documents with
neither title nor summary are skipped (`null`), the response values are
lowercased, trimmed and filtered to `ALLOWED_TAGS`, and an empty filtered
list is reported as `null` (no tags). -/
def generateTagsForDoc (title summary : String) (respTags : List String) :
    Option (List String) :=
  if title = "" ∧ summary = "" then none
  else
    let tags := filterTags respTags
    if tags.isEmpty then none else some tags

/-- One iteration of the backfill loop in `main`
(src/functions/lib/index.js:361-380): documents whose `tags` field is
already a non-empty array are skipped; otherwise `generateTagsForDoc` runs
and its non-null result is written back (`doc.ref.set({tags}, {merge:true})`).
The returned value is the written `tags` array, `none` when no write occurs. -/
def backfillWrite (existingTags : Option (List String)) (title summary : String)
    (respTags : List String) : Option (List String) :=
  match existingTags with
  | some ts => if ts.length > 0 then none else generateTagsForDoc title summary respTags
  | none => generateTagsForDoc title summary respTags

-- ## The two HTTP proxies (method guard, src/unnamed/part_000:52-56, 184-188)

/-- An HTTP response of the proxy endpoints. -/
inductive HttpResp where
  | textResp (status : Nat) (body : String)
  | jsonErr (status : Nat) (error : String)
  | upsertOk (summary : String)
  | emailOk
deriving DecidableEq, Repr

/-- `upsertNewsWithAiSummary` (src/unnamed/part_000:52-120). Body fields
arrive as possibly-absent JavaScript values; `openaiKey` is the resolved
`OPENAI_API_KEY` (empty string when unset); `aiResp` is the outcome of the
completion call together with content extraction (`Except.error` for a
non-ok upstream status or a network failure, both caught with summary
falling back to the empty string). Returns the response and the effects
performed (outbound HTTP call, Document Store write). -/
def upsertNewsWithAiSummary (method : String) (title url source : Option CVal)
    (openaiKey : String) (aiResp : Except String String) : HttpResp × List Eff :=
  if method ≠ "POST" then (HttpResp.textResp 405 "Method Not Allowed", [])
  else if !(jsTruthyOpt title && jsTruthyOpt url && jsTruthyOpt source) then
    (HttpResp.jsonErr 400 "Missing title, url or source", [])
  else if openaiKey = "" then (HttpResp.upsertOk "", [Eff.docWrite])
  else
    match aiResp with
    | Except.ok content => (HttpResp.upsertOk content.trim, [Eff.outboundHttp, Eff.docWrite])
    | Except.error _ => (HttpResp.upsertOk "", [Eff.outboundHttp, Eff.logError, Eff.docWrite])

/-- `sendContactEmail` (src/unnamed/part_000:184-220). `tpTruthy` and
`tpIsObject` model `!!template_params` and
`typeof template_params === 'object'`; the upstream EmailJS outcome is
passed in as its ok flag, status, status text and body text. On a non-ok
upstream response the status and body (`txt || r.statusText`) are relayed
verbatim. -/
def sendContactEmail (method : String) (service_id template_id user_id : Option CVal)
    (tpTruthy tpIsObject : Bool) (upstreamOk : Bool) (upstreamStatus : Nat)
    (upstreamStatusText upstreamText : String) : HttpResp × List Eff :=
  if method ≠ "POST" then (HttpResp.textResp 405 "Method Not Allowed", [])
  else if !(jsTruthyOpt service_id && jsTruthyOpt template_id && jsTruthyOpt user_id
      && tpTruthy && tpIsObject) then
    (HttpResp.jsonErr 400 "Missing required fields", [])
  else if !upstreamOk then
    (HttpResp.textResp upstreamStatus
      (if upstreamText ≠ "" then upstreamText else upstreamStatusText),
     [Eff.outboundHttp, Eff.logError])
  else (HttpResp.emailOk, [Eff.outboundHttp])


-- Association-list lemmas.

theorem lookup_setKey_self (m : Claims) (k : String) (v : CVal) :
    lookupClaim (setKey m k v) k = some v := by
  induction m with
  | nil => simp [setKey, lookupClaim]
  | cons p rest ih =>
    by_cases h : p.1 = k
    · simp [setKey, h, lookupClaim]
    · simp [setKey, h, lookupClaim, ih]

theorem lookup_setKey_ne (m : Claims) (k k' : String) (v : CVal) (h : k' ≠ k) :
    lookupClaim (setKey m k v) k' = lookupClaim m k' := by
  have h' : ¬ k = k' := fun hh => h hh.symm
  induction m with
  | nil => simp [setKey, lookupClaim, h']
  | cons p rest ih =>
    by_cases hp : p.1 = k
    · have hp' : ¬ p.1 = k' := by rw [hp]; exact h'
      simp [setKey, hp, lookupClaim, h', hp']
    · simp [setKey, hp, lookupClaim, ih]

theorem lookup_deleteKey_self (m : Claims) (k : String) :
    lookupClaim (deleteKey m k) k = none := by
  induction m with
  | nil => simp [deleteKey, lookupClaim]
  | cons p rest ih =>
    by_cases h : p.1 = k
    · simpa [deleteKey, h] using ih
    · simpa [deleteKey, h, lookupClaim] using ih

theorem lookup_deleteKey_ne (m : Claims) (k k' : String) (h : k' ≠ k) :
    lookupClaim (deleteKey m k) k' = lookupClaim m k' := by
  induction m with
  | nil => simp [deleteKey, lookupClaim]
  | cons p rest ih =>
    simp only [deleteKey] at ih ⊢
    rw [List.filter_cons]
    by_cases hp : p.1 = k
    · have hk' : ¬ k = k' := fun hh => h hh.symm
      simp [hp, lookupClaim, hk', ih]
    · by_cases hq : p.1 = k'
      · simp [hp, lookupClaim, hq, h]
      · simp [hp, lookupClaim, hq, ih]

theorem setKey_idem (m : Claims) (k : String) (v : CVal) :
    setKey (setKey m k v) k v = setKey m k v := by
  induction m with
  | nil => simp [setKey]
  | cons p rest ih =>
    by_cases h : p.1 = k
    · simp [setKey, h]
    · simp [setKey, h, ih]

/-- The written `admin` entry is truthy exactly when `isAdmin` was true. -/
theorem truthy_setAdminClaimNext (m : Claims) (b : Bool) :
    jsTruthyOpt (lookupClaim (setAdminClaimNext m b) "admin") = b := by
  cases b with
  | true =>
    rw [show setAdminClaimNext m true = setKey m "admin" (CVal.bool true) from rfl,
      lookup_setKey_self]
    rfl
  | false =>
    rw [show setAdminClaimNext m false
        = (if jsTruthyOpt (lookupClaim m "admin") then deleteKey m "admin" else m) from rfl]
    cases hx : jsTruthyOpt (lookupClaim m "admin") with
    | true =>
      rw [if_pos rfl, lookup_deleteKey_self]
      rfl
    | false =>
      rw [if_neg (by simp)]
      exact hx

/-- `setAdminClaimNext` never touches a key other than `admin`. -/
theorem lookup_setAdminClaimNext_ne (m : Claims) (b : Bool) (k : String)
    (h : k ≠ "admin") :
    lookupClaim (setAdminClaimNext m b) k = lookupClaim m k := by
  cases b with
  | true => simp [setAdminClaimNext, lookup_setKey_ne _ _ _ _ h]
  | false =>
    by_cases ht : jsTruthyOpt (lookupClaim m "admin") = true
    · simp [setAdminClaimNext, ht, lookup_deleteKey_ne _ _ _ h]
    · simp [setAdminClaimNext, ht]

/-- The second application of `setAdminClaimNext` with the same flag is a
no-op on the mapping. -/
theorem setAdminClaimNext_idem (m : Claims) (b : Bool) :
    setAdminClaimNext (setAdminClaimNext m b) b = setAdminClaimNext m b := by
  cases b with
  | true =>
    show setKey (setKey m "admin" (CVal.bool true)) "admin" (CVal.bool true)
      = setKey m "admin" (CVal.bool true)
    exact setKey_idem m "admin" (CVal.bool true)
  | false =>
    show (if jsTruthyOpt (lookupClaim (setAdminClaimNext m false) "admin") then
        deleteKey (setAdminClaimNext m false) "admin"
      else setAdminClaimNext m false) = setAdminClaimNext m false
    rw [truthy_setAdminClaimNext]
    simp

-- ## Claim theorems

/-- Claim C2 counterexample: with prior claims `{admin: false}`, the code's
revoke path (`if (nextClaims.admin) delete nextClaims.admin`) skips the
deletion because the existing value is falsy, so the mapping written back
still contains the `admin` key — the claim that the key is removed entirely
whenever it is present is false. -/
theorem C2_revoke_counterexample :
    grantOrRevoke (some [("admin", CVal.bool false)]) false
      = some [("admin", CVal.bool false)]
    ∧ ¬ lookupClaim ((grantOrRevoke (some [("admin", CVal.bool false)]) false).getD [])
        "admin" = none := by
  decide

/-- Claim C2 (amended): after grant-or-revoke(uid, false) the written
mapping never binds `admin` to a truthy value and is never newly given the
key; the key is removed entirely when its prior value was truthy, but a
prior `admin` entry holding a falsy value (such as `false` or `0`) is left
in place unchanged; every other key is untouched. -/
theorem C2_revoke_amended (c : Option Claims) :
    jsTruthyOpt (lookupClaim ((grantOrRevoke c false).getD []) "admin") = false
    ∧ (jsTruthyOpt (lookupClaim (c.getD []) "admin") = true →
        lookupClaim ((grantOrRevoke c false).getD []) "admin" = none)
    ∧ (jsTruthyOpt (lookupClaim (c.getD []) "admin") = false →
        lookupClaim ((grantOrRevoke c false).getD []) "admin"
          = lookupClaim (c.getD []) "admin")
    ∧ ∀ k, k ≠ "admin" →
        lookupClaim ((grantOrRevoke c false).getD []) k = lookupClaim (c.getD []) k := by
  refine ⟨?_, ?_, ?_, ?_⟩
  · simpa [grantOrRevoke] using truthy_setAdminClaimNext (c.getD []) false
  · intro ht
    simp [grantOrRevoke, setAdminClaimNext, ht, lookup_deleteKey_self]
  · intro hf
    simp [grantOrRevoke, setAdminClaimNext, hf]
  · intro k hk
    simpa [grantOrRevoke] using lookup_setAdminClaimNext_ne (c.getD []) false k hk

/-- Witness for C2 (amended) at prior claims `{admin: true, role: "x"}`
(truthy entry removed, other key untouched), `{admin: false}` (falsy entry
left in place unchanged) and an absent mapping (the key is never gained). -/
theorem C2_revoke_amended_witness :
    jsTruthyOpt (lookupClaim ((grantOrRevoke
        (some [("admin", CVal.bool true), ("role", CVal.str "x")]) false).getD [])
        "admin") = false
    ∧ lookupClaim ((grantOrRevoke
        (some [("admin", CVal.bool true), ("role", CVal.str "x")]) false).getD [])
        "admin" = none
    ∧ lookupClaim ((grantOrRevoke
        (some [("admin", CVal.bool true), ("role", CVal.str "x")]) false).getD [])
        "role"
      = lookupClaim ((some [("admin", CVal.bool true), ("role", CVal.str "x")]
          : Option Claims).getD []) "role"
    ∧ lookupClaim ((grantOrRevoke (some [("admin", CVal.bool false)]) false).getD [])
        "admin"
      = lookupClaim ((some [("admin", CVal.bool false)] : Option Claims).getD [])
        "admin"
    ∧ lookupClaim ((grantOrRevoke none false).getD []) "admin"
      = lookupClaim ((none : Option Claims).getD []) "admin" :=
  ⟨(C2_revoke_amended (some [("admin", CVal.bool true), ("role", CVal.str "x")])).1,
   (C2_revoke_amended (some [("admin", CVal.bool true), ("role", CVal.str "x")])).2.1
     (by decide),
   (C2_revoke_amended (some [("admin", CVal.bool true), ("role", CVal.str "x")])).2.2.2
     "role" (by decide),
   (C2_revoke_amended (some [("admin", CVal.bool false)])).2.2.1 (by decide),
   (C2_revoke_amended none).2.2.1 rfl⟩

/-- Claim C3: after grant-or-revoke(uid, true) — an absent claims mapping
treated as the empty mapping — the written mapping binds `admin` to `true`
and leaves every other key-value pair unchanged. -/
theorem C3_grant (c : Option Claims) :
    lookupClaim ((grantOrRevoke c true).getD []) "admin" = some (CVal.bool true)
    ∧ ∀ k, k ≠ "admin" →
        lookupClaim ((grantOrRevoke c true).getD []) k = lookupClaim (c.getD []) k := by
  refine ⟨?_, ?_⟩
  · simpa [grantOrRevoke, setAdminClaimNext] using
      lookup_setKey_self (c.getD []) "admin" (CVal.bool true)
  · intro k hk
    simpa [grantOrRevoke] using lookup_setAdminClaimNext_ne (c.getD []) true k hk

/-- Witness for C3 at prior claims `{role: "editor"}`. -/
theorem C3_grant_witness :
    lookupClaim ((grantOrRevoke (some [("role", CVal.str "editor")]) true).getD [])
      "admin" = some (CVal.bool true)
    ∧ lookupClaim ((grantOrRevoke (some [("role", CVal.str "editor")]) true).getD [])
        "role"
      = lookupClaim ((some [("role", CVal.str "editor")] : Option Claims).getD [])
        "role" :=
  ⟨(C3_grant (some [("role", CVal.str "editor")])).1,
   (C3_grant (some [("role", CVal.str "editor")])).2 "role" (by decide)⟩

/-- Claim C4: grant-or-revoke is idempotent — for every initial claims
mapping (present or absent) and both flag values, applying it twice in
sequence with no interleaved writer yields the same final mapping as
applying it once. -/
theorem C4_grantOrRevoke_idempotent (c : Option Claims) (b : Bool) :
    grantOrRevoke (grantOrRevoke c b) b = grantOrRevoke c b := by
  simp [grantOrRevoke, setAdminClaimNext_idem]

/-- Claim C1 counterexample: delete the Authorization Document for a user
whose profile still has `isAdmin: true`. The on-authorization-deleted
handler calls `setAdminClaim(uid, false)` without consulting the profile,
so afterwards the `admin` claim is absent while "Authorization Document
exists OR profile.isAdmin is true" still holds — the biconditional fails
after this operation. -/
theorem C1_invariant_counterexample :
    ¬ adminInvariant
      (onAdminDocDeleted
        ⟨false, some [("isAdmin", CVal.bool true)], some [("admin", CVal.bool true)]⟩).1 := by
  decide

/-- Claim C1 (amended): the biconditional "`admin` claim present and truthy
iff Authorization Document exists or profile.isAdmin is true" holds after
every successful sync-now, and after on-authorization-created (the document
exists when it fires); after on-authorization-deleted it holds only under
the additional assumption that the profile's `isAdmin` is not `true` at
that time — the trigger-based operations consult only the source that
fired them, so the biconditional can fail when the other source disagrees. -/
theorem C1_invariant_amended :
    (∀ (h : Option String) (verify : String → Option String) (st : SysState)
      (tok uid : String), parseBearer (h.getD "") = some tok →
      verify tok = some uid →
      adminInvariant (syncAdminClaims h verify st).store)
    ∧ (∀ st : SysState, st.adminDocExists = true →
        adminInvariant (onAdminDocCreated st).1)
    ∧ (∀ st : SysState, st.adminDocExists = false →
        profileIsAdminStrict st.profileDoc = false →
        adminInvariant (onAdminDocDeleted st).1) := by
  refine ⟨?_, ?_, ?_⟩
  · intro h verify st tok uid hpb hv
    simp only [syncAdminClaims, hpb, hv]
    show claimTruthy _ = _
    simp [claimTruthy, grantOrRevoke, truthy_setAdminClaimNext]
  · intro st hA
    show claimTruthy _ = _
    simp [onAdminDocCreated, claimTruthy, grantOrRevoke, truthy_setAdminClaimNext, hA]
  · intro st hA hP
    show claimTruthy _ = _
    simp [onAdminDocDeleted, claimTruthy, grantOrRevoke, truthy_setAdminClaimNext, hA, hP]

/-- Witness for C1 (amended): a successful sync-now, a creation with the
document present, and a deletion with a non-admin profile. -/
theorem C1_invariant_amended_witness :
    adminInvariant (syncAdminClaims (some "Bearer tok") (fun _ => some "u1")
      ⟨true, none, some []⟩).store
    ∧ adminInvariant (onAdminDocCreated ⟨true, none, some []⟩).1
    ∧ adminInvariant
        (onAdminDocDeleted ⟨false, none, some [("admin", CVal.bool true)]⟩).1 :=
  ⟨C1_invariant_amended.1 (some "Bearer tok") (fun _ => some "u1")
      ⟨true, none, some []⟩ "tok" "u1" (by decide) rfl,
   C1_invariant_amended.2.1 ⟨true, none, some []⟩ rfl,
   C1_invariant_amended.2.2 ⟨false, none, some [("admin", CVal.bool true)]⟩ rfl rfl⟩

/-- Claim C5: for a request whose bearer token verifies, sync-now computes
`isAdmin` as the logical OR of Authorization-Document existence and the
profile's strict `isAdmin === true`; in particular, when the Authorization
Document exists but the profile is not an admin (field false or profile
absent), it still grants the claim and returns 200 with
`{ok: true, uid, isAdmin: true}`. -/
theorem C5_syncNow_or_semantics
    (h : Option String) (verify : String → Option String) (st : SysState)
    (tok uid : String) (hpb : parseBearer (h.getD "") = some tok)
    (hv : verify tok = some uid) :
    (syncAdminClaims h verify st).body
      = SyncBody.okBody uid (st.adminDocExists || profileIsAdminStrict st.profileDoc)
    ∧ (syncAdminClaims h verify st).status = 200
    ∧ (st.adminDocExists = true → profileIsAdminStrict st.profileDoc = false →
        (syncAdminClaims h verify st).body = SyncBody.okBody uid true
        ∧ claimTruthy (syncAdminClaims h verify st).store = true) := by
  refine ⟨?_, ?_, ?_⟩
  · simp [syncAdminClaims, hpb, hv]
  · simp [syncAdminClaims, hpb, hv]
  · intro hA hP
    refine ⟨?_, ?_⟩
    · simp [syncAdminClaims, hpb, hv, hA, hP]
    · simp [syncAdminClaims, hpb, hv, hA, hP, claimTruthy, grantOrRevoke,
        truthy_setAdminClaimNext]

/-- Witness for C5: Authorization Document exists, profile has
`isAdmin: false`, token verifies. -/
theorem C5_syncNow_or_semantics_witness :
    (syncAdminClaims (some "Bearer tok") (fun _ => some "u1")
      ⟨true, some [("isAdmin", CVal.bool false)], some []⟩).body
      = SyncBody.okBody "u1"
          ((true : Bool) || profileIsAdminStrict (some [("isAdmin", CVal.bool false)]))
    ∧ (syncAdminClaims (some "Bearer tok") (fun _ => some "u1")
        ⟨true, some [("isAdmin", CVal.bool false)], some []⟩).status = 200
    ∧ claimTruthy (syncAdminClaims (some "Bearer tok") (fun _ => some "u1")
        ⟨true, some [("isAdmin", CVal.bool false)], some []⟩).store = true :=
  ⟨(C5_syncNow_or_semantics (some "Bearer tok") (fun _ => some "u1")
      ⟨true, some [("isAdmin", CVal.bool false)], some []⟩ "tok" "u1"
      (by decide) rfl).1,
   (C5_syncNow_or_semantics (some "Bearer tok") (fun _ => some "u1")
      ⟨true, some [("isAdmin", CVal.bool false)], some []⟩ "tok" "u1"
      (by decide) rfl).2.1,
   ((C5_syncNow_or_semantics (some "Bearer tok") (fun _ => some "u1")
      ⟨true, some [("isAdmin", CVal.bool false)], some []⟩ "tok" "u1"
      (by decide) rfl).2.2 rfl (by decide)).2⟩

/-- Claim C6: a request whose Authorization header is absent or does not
match `Bearer <token>` is answered 401 with an explanatory message, with
the stores untouched and no effect performed — no token verification, no
Document Store read, no Credential Store write. -/
theorem C6_missing_header_401
    (h : Option String) (verify : String → Option String) (st : SysState)
    (hpb : parseBearer (h.getD "") = none) :
    syncAdminClaims h verify st
      = ⟨401, SyncBody.errBody "Missing Authorization: Bearer <ID_TOKEN>", st, []⟩ := by
  simp [syncAdminClaims, hpb]

/-- Witness for C6: the Authorization header is absent. -/
theorem C6_missing_header_401_witness :
    syncAdminClaims none (fun _ => some "u1") ⟨false, none, none⟩
      = ⟨401, SyncBody.errBody "Missing Authorization: Bearer <ID_TOKEN>",
          ⟨false, none, none⟩, []⟩ :=
  C6_missing_header_401 none (fun _ => some "u1") ⟨false, none, none⟩ (by decide)

/-- Claim C7: a well-formed `Bearer <token>` header whose token fails
verification is answered 500 (not 401), the failure is logged, and no
Credential Store write happens — the store is unchanged. -/
theorem C7_bad_token_500
    (h : Option String) (verify : String → Option String) (st : SysState)
    (tok : String) (hpb : parseBearer (h.getD "") = some tok)
    (hv : verify tok = none) :
    (syncAdminClaims h verify st).status = 500
    ∧ Eff.logError ∈ (syncAdminClaims h verify st).effs
    ∧ Eff.credSetClaims ∉ (syncAdminClaims h verify st).effs
    ∧ (syncAdminClaims h verify st).store = st := by
  refine ⟨?_, ?_, ?_, ?_⟩ <;> simp [syncAdminClaims, hpb, hv]

/-- Witness for C7: a well-formed header with a token the verifier
rejects. -/
theorem C7_bad_token_500_witness :
    (syncAdminClaims (some "Bearer expired") (fun _ => none) ⟨true, none, none⟩).status
      = 500
    ∧ Eff.logError
        ∈ (syncAdminClaims (some "Bearer expired") (fun _ => none)
            ⟨true, none, none⟩).effs
    ∧ Eff.credSetClaims
        ∉ (syncAdminClaims (some "Bearer expired") (fun _ => none)
            ⟨true, none, none⟩).effs
    ∧ (syncAdminClaims (some "Bearer expired") (fun _ => none) ⟨true, none, none⟩).store
        = ⟨true, none, none⟩ :=
  C7_bad_token_500 (some "Bearer expired") (fun _ => none) ⟨true, none, none⟩
    "expired" (by decide) rfl

/-- Claim C8: when the before and after profile documents have `isAdmin`
fields with equal boolean coercions (absent coerced to false),
on-profile-updated performs no Credential Store read or write and leaves
the state unchanged. -/
theorem C8_profile_no_change_frame
    (before after : Option Claims) (st : SysState)
    (heq : jsTruthyOpt (lookupClaim (before.getD []) "isAdmin")
      = jsTruthyOpt (lookupClaim (after.getD []) "isAdmin")) :
    onUserIsAdminUpdated before after st = (st, []) := by
  simp [onUserIsAdminUpdated, heq]

/-- Witness for C8: `isAdmin` changes value (`true` to the number `1`) but
not coerced boolean. -/
theorem C8_profile_no_change_frame_witness :
    onUserIsAdminUpdated (some [("isAdmin", CVal.bool true)])
      (some [("isAdmin", CVal.num 1)]) ⟨false, none, none⟩
      = (⟨false, none, none⟩, []) :=
  C8_profile_no_change_frame (some [("isAdmin", CVal.bool true)])
    (some [("isAdmin", CVal.num 1)]) ⟨false, none, none⟩ (by decide)

/-- Claim C9 counterexample: a processed document (no existing tags, a
non-empty title) whose model response is `["auto"]` — a single allowed
value — is written with `tags = ["auto"]` of cardinality 1: the code never
enforces the 2-4 cardinality, it only requests it in the prompt. -/
theorem C9_cardinality_counterexample :
    backfillWrite none "Seguro auto em Portugal" "" ["auto"] = some ["auto"]
    ∧ ¬ 2 ≤ (["auto"] : List String).length := by
  decide

/-- Claim C9 (amended): for every processed news document, the tags written
are exactly the model's response values lowercased and trimmed and then
filtered to the fixed vocabulary (unlisted values dropped); any written
tags list is a non-empty subset of the vocabulary (its cardinality is not
bounded by the code); and when the filtered set is empty no write occurs. -/
theorem C9_backfill_amended (title summary : String) (resp : List String) :
    (∀ w, generateTagsForDoc title summary resp = some w →
      w = filterTags resp ∧ w ≠ [] ∧ ∀ t ∈ w, t ∈ ALLOWED_TAGS)
    ∧ (filterTags resp = [] → generateTagsForDoc title summary resp = none) := by
  constructor
  · intro w hw
    by_cases h0 : title = "" ∧ summary = ""
    · simp [generateTagsForDoc, h0] at hw
    · rw [generateTagsForDoc, if_neg h0] at hw
      by_cases he : (filterTags resp).isEmpty
      · simp [he] at hw
      · simp only [he, Bool.false_eq_true, if_false, Option.some.injEq] at hw
        subst hw
        refine ⟨rfl, ?_, ?_⟩
        · simpa [List.isEmpty_iff] using he
        · intro t ht
          exact List.mem_of_elem_eq_true (List.mem_filter.mp ht).2
  · intro hfe
    by_cases h0 : title = "" ∧ summary = ""
    · simp [generateTagsForDoc, h0]
    · simp [generateTagsForDoc, h0, hfe]

/-- Witness for C9 (amended): a response containing an unlisted tag
(`desporto`) stores exactly the listed ones, and an all-unlisted response
yields no write. -/
theorem C9_backfill_amended_witness :
    (["auto", "vida"] : List String) = filterTags ["auto", "vida", "desporto"]
    ∧ generateTagsForDoc "Título" "" ["desporto"] = none :=
  ⟨((C9_backfill_amended "Título" "" ["auto", "vida", "desporto"]).1
      ["auto", "vida"] (by decide)).1,
   (C9_backfill_amended "Título" "" ["desporto"]).2 (by decide)⟩

/-- Claim C10: any request whose method is not POST is answered
405 `Method Not Allowed` by both `sendContactEmail` and
`upsertNewsWithAiSummary`, with no outbound HTTP call and no Document
Store write performed. -/
theorem C10_non_post_405
    (method : String) (title url source : Option CVal) (key : String)
    (ai : Except String String) (sid tid uidv : Option CVal)
    (tpTruthy tpIsObject upOk : Bool) (upStatus : Nat) (upStatusText upText : String)
    (hm : method ≠ "POST") :
    upsertNewsWithAiSummary method title url source key ai
      = (HttpResp.textResp 405 "Method Not Allowed", [])
    ∧ sendContactEmail method sid tid uidv tpTruthy tpIsObject upOk upStatus
        upStatusText upText
      = (HttpResp.textResp 405 "Method Not Allowed", []) := by
  constructor
  · simp [upsertNewsWithAiSummary, hm]
  · simp [sendContactEmail, hm]

/-- Witness for C10: a GET request to both endpoints. -/
theorem C10_non_post_405_witness :
    upsertNewsWithAiSummary "GET" (some (CVal.str "t")) (some (CVal.str "u"))
      (some (CVal.str "s")) "" (Except.error "")
      = (HttpResp.textResp 405 "Method Not Allowed", [])
    ∧ sendContactEmail "GET" (some (CVal.str "a")) (some (CVal.str "b"))
        (some (CVal.str "c")) true true true 200 "OK" ""
      = (HttpResp.textResp 405 "Method Not Allowed", []) :=
  C10_non_post_405 "GET" (some (CVal.str "t")) (some (CVal.str "u"))
    (some (CVal.str "s")) "" (Except.error "") (some (CVal.str "a"))
    (some (CVal.str "b")) (some (CVal.str "c")) true true true 200 "OK" ""
    (by decide)
